import Mathlib

/-!
Shallow embedding of the srtla receiver (irlserver/srtla) in Lean 4, together
with theorems settling the claims about its quality-evaluation, load-balancing,
registration and ACK logic.

Modelling conventions:
* `time_t` values are `Int`; millisecond timestamps (`uint64_t`) are `Nat`.
* C `double` values are modelled as exact rationals (`ℚ`); the code performs no
  operation whose branch behaviour depends on double rounding at the values the
  claims are about.
* Socket sends are modelled as always succeeding; a function's outgoing control
  packet is part of its return value instead of an I/O effect.
* `sockaddr_storage` peer addresses are opaque and modelled as `Nat`; the
  `addresses_equal` helper of `connection_registry.cpp` is exact equality on
  them, and a group's initially zeroed `last_addr_` (which compares unequal to
  every real address) is `Option.none`.
* `std::unordered_map<uint64_t, NakHashEntry>` is modelled as an association
  list; the code never iterates the map, so ordering is irrelevant.
* Logging (`spdlog`) and the `legacy_*` comparison logging fields are carried
  where they are written, but logging itself has no state effect.
-/

namespace Srtla

/-! ## Constants from `receiver_config.h` -/

def MAX_CONNS_PER_GROUP : Nat := 16
def MAX_GROUPS : Nat := 200
def CONN_TIMEOUT : Int := 4
def CONN_QUALITY_EVAL_PERIOD : Int := 5
def ACK_THROTTLE_INTERVAL : Nat := 100
def MIN_ACK_RATE : ℚ := 2/10
def MIN_ACCEPTABLE_TOTAL_BANDWIDTH_KBPS : ℚ := 1000
def GOOD_CONNECTION_THRESHOLD : ℚ := 5/10
def CONNECTION_GRACE_PERIOD : Int := 10

def WEIGHT_FULL : Nat := 100
def WEIGHT_EXCELLENT : Nat := 85
def WEIGHT_DEGRADED : Nat := 70
def WEIGHT_FAIR : Nat := 55
def WEIGHT_POOR : Nat := 40
def WEIGHT_CRITICAL : Nat := 10

def RTT_THRESHOLD_CRITICAL : Nat := 500
def RTT_THRESHOLD_HIGH : Nat := 200
def RTT_THRESHOLD_MODERATE : Nat := 100
def RTT_VARIANCE_THRESHOLD : Nat := 50
def KEEPALIVE_STALENESS_THRESHOLD : Int := 2
def RTT_HISTORY_SIZE : Nat := 5

def NAK_RATE_CRITICAL : ℚ := 20/100
def NAK_RATE_HIGH : ℚ := 10/100
def NAK_RATE_MODERATE : ℚ := 5/100
def NAK_RATE_LOW : ℚ := 1/100

def WINDOW_UTILIZATION_CONGESTED : ℚ := 95/100

def RECV_ACK_INT : Nat := 10

/-! ## Machine-integer helpers -/

/-- The four bytes of `htobe32 n`: the big-endian encoding of a 32-bit value.
`register_packet` stores `htobe32(sn)` into the receive log, and the SRTLA ACK
packet carries those stored bytes verbatim. -/
def be32 (n : Nat) : List Nat :=
  [n / 2 ^ 24 % 256, n / 2 ^ 16 % 256, n / 2 ^ 8 % 256, n % 256]

/-- Wrapping `uint64_t` subtraction `a - b`. -/
def sub64 (a b : Nat) : Nat := (2 ^ 64 + a % 2 ^ 64 - b % 2 ^ 64) % 2 ^ 64

/-- Wrapping `uint32_t` subtraction `a - b`. -/
def sub32 (a b : Nat) : Nat := (2 ^ 32 + a % 2 ^ 32 - b % 2 ^ 32) % 2 ^ 32

/-! ## `ConnectionStats` (`receiver_config.h`) -/

/-- Field-for-field model of `struct ConnectionStats`, with the defaults of the
in-class initializers.  `double` fields are rationals; `time_t` fields are
`Int`; unsigned counters are `Nat`. -/
structure ConnectionStats where
  bytes_received : Nat := 0
  packets_received : Nat := 0
  packets_lost : Nat := 0
  last_eval_time : Nat := 0
  last_bytes_received : Nat := 0
  last_packets_received : Nat := 0
  last_packets_lost : Nat := 0
  error_points : Nat := 0
  weight_percent : Nat := WEIGHT_FULL
  last_ack_sent_time : Nat := 0
  ack_throttle_factor : ℚ := 1
  nack_count : Nat := 0
  rtt_ms : Nat := 0
  rtt_history : List Nat := List.replicate RTT_HISTORY_SIZE 0
  rtt_history_idx : Nat := 0
  last_keepalive : Int := 0
  window : Int := 0
  in_flight : Int := 0
  sender_nak_count : Nat := 0
  last_sender_nak_count : Nat := 0
  sender_bitrate_bps : Nat := 0
  sender_supports_extended_keepalives : Bool := false
  legacy_error_points : Nat := 0
  legacy_weight_percent : Nat := WEIGHT_FULL
  legacy_ack_throttle_factor : ℚ := 1
deriving Repr, DecidableEq

/-- `ConnectionStats::has_valid_sender_telemetry`. -/
def has_valid_sender_telemetry (s : ConnectionStats) (current_time : Int) : Bool :=
  if s.last_keepalive = 0 then false
  else if current_time - s.last_keepalive > KEEPALIVE_STALENESS_THRESHOLD then false
  else decide (0 < s.rtt_ms) || decide (0 < s.window)

/-! ## `Connection` (`connection.h` / `connection.cpp`) -/

/-- Model of `class Connection`.  `recv_idx` is a C `int`, hence `Int` here;
the receive log holds the stored big-endian 4-byte encodings. -/
structure Connection where
  address : Nat
  last_rcvd : Int
  recv_idx : Int
  recv_log : List (List Nat)
  stats : ConnectionStats
  recovery_start : Int
  connection_start : Int
deriving Repr, DecidableEq

/-- The `Connection(addr, timestamp)` constructor: zeroed receive log, default
stats, `last_rcvd_` and `connection_start_` both set to the timestamp. -/
def mkConnection (addr : Nat) (ts : Int) : Connection where
  address := addr
  last_rcvd := ts
  recv_idx := 0
  recv_log := List.replicate RECV_ACK_INT (be32 0)
  stats := {}
  recovery_start := 0
  connection_start := ts

/-! ## `SRTLAHandler::register_packet` (`srtla_handler.cpp` 285-334) -/

/-- Result of `register_packet`: the updated connection, and the SRTLA ACK that
was put on the wire (`none` when no ACK was sent this call).  The ACK payload
is the receive log copied into the packet. -/
structure RegisterPacketResult where
  conn : Connection
  ack : Option (List (List Nat))
deriving Repr, DecidableEq

/-- The condition under which `register_packet` suppresses the ACK: the
throttle factor is strictly between 0 and 1, at least one ACK has already been
sent, and `current_ms` is still inside the minimum interval
`uint64_t(ACK_THROTTLE_INTERVAL / factor)` (double division truncated). -/
def ackThrottled (s : ConnectionStats) (now_ms : Nat) : Bool :=
  decide (0 < s.ack_throttle_factor) && decide (s.ack_throttle_factor < 1) &&
  decide (0 < s.last_ack_sent_time) &&
  decide (now_ms < s.last_ack_sent_time +
    Nat.floor ((ACK_THROTTLE_INTERVAL : ℚ) / s.ack_throttle_factor))

/-- `SRTLAHandler::register_packet`: increments the receive index, stores
`htobe32(sn)` at the previous index, and when the index reaches `RECV_ACK_INT`
sends an SRTLA ACK carrying the log (unless throttled) and resets the index.
The send is modelled as succeeding, so a sent ACK updates
`last_ack_sent_time`. -/
def register_packet (c : Connection) (sn : Nat) (now_ms : Nat) : RegisterPacketResult :=
  let i1 : Int := c.recv_idx + 1
  let log1 := c.recv_log.set (i1 - 1).toNat (be32 sn)
  if i1 = (RECV_ACK_INT : Int) then
    if ackThrottled c.stats now_ms then
      { conn := { c with recv_idx := 0, recv_log := log1 }, ack := none }
    else
      let s1 := { c.stats with last_ack_sent_time := now_ms }
      { conn := { c with recv_idx := 0, recv_log := log1, stats := s1 }, ack := some log1 }
  else
    { conn := { c with recv_idx := i1, recv_log := log1 }, ack := none }

/-! ## NAK deduplication (`nak_dedup.h` / `nak_dedup.cpp`) -/

def SUPPRESS_MS : Nat := 100
def MAX_REPEATS : Nat := 1

/-- `struct NakHashEntry`. -/
structure NakHashEntry where
  timestamp_ms : Nat := 0
  repeat_count : Nat := 0
deriving Repr, DecidableEq

/-- The group's `std::unordered_map<uint64_t, NakHashEntry>` as an association
list (the code never iterates it, so ordering is irrelevant). -/
abbrev NakCache := List (Nat × NakHashEntry)

/-- `cache.find(hash)`. -/
def cacheFind : NakCache → Nat → Option NakHashEntry
  | [], _ => none
  | (k, e) :: rest, h => if k = h then some e else cacheFind rest h

/-- In-place update of the entry at a key (`it->second = e`). -/
def cacheSet : NakCache → Nat → NakHashEntry → NakCache
  | [], _, _ => []
  | (k, e0) :: rest, h, e => if k = h then (k, e) :: rest else (k, e0) :: cacheSet rest h e

/-- `NakDeduplicator::should_accept_nak`: accept and insert on first sighting;
afterwards reject when the clock ran backwards, when inside the 100 ms
suppression window, or when the entry was already repeated `MAX_REPEATS`
times; otherwise refresh the entry and accept. -/
def should_accept_nak (cache : NakCache) (hash : Nat) (current_time_ms : Nat) :
    Bool × NakCache :=
  match cacheFind cache hash with
  | none => (true, cache ++ [(hash, { timestamp_ms := current_time_ms, repeat_count := 0 })])
  | some e =>
    if current_time_ms < e.timestamp_ms then (false, cache)
    else if current_time_ms - e.timestamp_ms < SUPPRESS_MS then (false, cache)
    else if MAX_REPEATS ≤ e.repeat_count then (false, cache)
    else (true, cacheSet cache hash
      { timestamp_ms := current_time_ms, repeat_count := e.repeat_count + 1 })

/-! ## Keepalive telemetry (`srtla_handler.cpp` 336-362) -/

/-- The sender telemetry parsed out of an extended keepalive
(`connection_info_t` in `common.h`). -/
structure ConnectionInfo where
  rtt_ms : Nat
  window : Int
  in_flight : Int
  nak_count : Nat
  bitrate_bytes_per_sec : Nat
deriving Repr, DecidableEq

/-- `SRTLAHandler::update_rtt_history`. -/
def update_rtt_history (s : ConnectionStats) (rtt : Nat) : ConnectionStats :=
  { s with rtt_history := s.rtt_history.set s.rtt_history_idx rtt,
           rtt_history_idx := (s.rtt_history_idx + 1) % RTT_HISTORY_SIZE,
           rtt_ms := rtt }

/-- `SRTLAHandler::update_connection_telemetry`. -/
def update_connection_telemetry (s : ConnectionStats) (info : ConnectionInfo)
    (current_time : Int) : ConnectionStats :=
  let s1 := update_rtt_history s info.rtt_ms
  { s1 with window := info.window, in_flight := info.in_flight,
            sender_nak_count := info.nak_count,
            sender_bitrate_bps := info.bitrate_bytes_per_sec,
            last_keepalive := current_time }

/-! ## Receiver-side metric bookkeeping (`metrics_collector.cpp`) -/

/-- `MetricsCollector::on_packet_received`. -/
def on_packet_received (s : ConnectionStats) (bytes : Nat) : ConnectionStats :=
  { s with bytes_received := s.bytes_received + bytes,
           packets_received := s.packets_received + 1 }

/-- `MetricsCollector::on_nak_detected`. -/
def on_nak_detected (s : ConnectionStats) (nak_count : Nat) : ConnectionStats :=
  { s with packets_lost := s.packets_lost + nak_count,
           nack_count := s.nack_count + nak_count }

/-! ## Quality evaluator metric functions (`quality_evaluator.cpp` 289-402) -/

/-- Square of `QualityEvaluator::calculate_rtt_variance`: the source returns
`sqrt(variance_sum / count)` over the positive samples of the RTT history
(0 when fewer than two such samples).  Both the returned standard deviation
and the threshold it is compared against are nonnegative, so comparisons of
the source value against `x` coincide with comparisons of this square against
`x^2`, which keeps the definition inside `ℚ`. -/
def rtt_variance_sq (s : ConnectionStats) : ℚ :=
  let samples := s.rtt_history.filter (fun r => decide (0 < r))
  let count := samples.length
  if count < 2 then 0
  else
    let mean : ℚ := ((samples.map (fun r => (r : ℚ))).sum) / count
    let varianceSum : ℚ := ((samples.map (fun r => ((r : ℚ) - mean) ^ 2)).sum)
    varianceSum / count

/-- `QualityEvaluator::calculate_rtt_error_points`: 0 on stale keepalive data,
otherwise tiered base RTT penalties plus a jitter penalty when the standard
deviation of the history exceeds `RTT_VARIANCE_THRESHOLD` (compared here in
squared form, see `rtt_variance_sq`). -/
def calculate_rtt_error_points (s : ConnectionStats) (current_time : Int) : Nat :=
  if s.last_keepalive = 0 ∨ current_time - s.last_keepalive > KEEPALIVE_STALENESS_THRESHOLD then 0
  else
    let base : Nat :=
      if RTT_THRESHOLD_CRITICAL < s.rtt_ms then 20
      else if RTT_THRESHOLD_HIGH < s.rtt_ms then 10
      else if RTT_THRESHOLD_MODERATE < s.rtt_ms then 5
      else 0
    base + (if ((RTT_VARIANCE_THRESHOLD : ℚ)) ^ 2 < rtt_variance_sq s then 10 else 0)

/-- `QualityEvaluator::calculate_nak_error_points`; also returns the updated
stats because the source refreshes `last_sender_nak_count` in place. -/
def calculate_nak_error_points (s : ConnectionStats) (packets_diff : Nat) :
    Nat × ConnectionStats :=
  if packets_diff = 0 ∨ s.sender_nak_count = 0 then (0, s)
  else
    let nak_diff := sub32 s.sender_nak_count s.last_sender_nak_count
    let nak_rate : ℚ := (nak_diff : ℚ) / (packets_diff : ℚ)
    let points : Nat :=
      if NAK_RATE_CRITICAL < nak_rate then 40
      else if NAK_RATE_HIGH < nak_rate then 20
      else if NAK_RATE_MODERATE < nak_rate then 10
      else if NAK_RATE_LOW < nak_rate then 5
      else 0
    (points, { s with last_sender_nak_count := s.sender_nak_count })

/-- `QualityEvaluator::calculate_window_error_points`. -/
def calculate_window_error_points (s : ConnectionStats) : Nat :=
  if s.window ≤ 0 then 0
  else if WINDOW_UTILIZATION_CONGESTED < (s.in_flight : ℚ) / (s.window : ℚ) then 15
  else 0

/-! ## `ConnectionGroup` (`connection_group.h` / `connection_group.cpp`) -/

/-- Model of `class ConnectionGroup`.  The group id is opaque (the client half
concatenated with the random half).  `last_addr` is `none` while the
`sockaddr_storage` is still zeroed, which compares unequal to every peer
address. -/
structure ConnectionGroup where
  id : Nat
  conns : List Connection
  created_at : Int
  last_addr : Option Nat
  total_target_bandwidth : Nat
  last_quality_eval : Int
  last_load_balance_eval : Int
  load_balancing_enabled : Bool
  nak_cache : NakCache
deriving Repr, DecidableEq

/-- The `ConnectionGroup(client_id, timestamp)` constructor. -/
def mkGroup (gid : Nat) (ts : Int) : ConnectionGroup where
  id := gid
  conns := []
  created_at := ts
  last_addr := none
  total_target_bandwidth := 0
  last_quality_eval := 0
  last_load_balance_eval := 0
  load_balancing_enabled := true
  nak_cache := []

/-- `conn_timed_out` (`connection_registry.cpp`), also the inline timeout test
of `load_balancer.cpp` line 69. -/
def connTimedOut (c : Connection) (ts : Int) : Bool :=
  decide (c.last_rcvd + CONN_TIMEOUT < ts)

/-! ## `LoadBalancer::adjust_weights` (`load_balancer.cpp` 18-147) -/

/-- The error-point bucketing of `load_balancer.cpp` lines 50-62. -/
def bucketWeight (error_points : Nat) : Nat :=
  if 40 ≤ error_points then WEIGHT_CRITICAL
  else if 25 ≤ error_points then WEIGHT_POOR
  else if 15 ≤ error_points then WEIGHT_FAIR
  else if 10 ≤ error_points then WEIGHT_DEGRADED
  else if 5 ≤ error_points then WEIGHT_EXCELLENT
  else WEIGHT_FULL

/-- Phase 1 of `adjust_weights` applied to one connection: store the bucketed
weight. -/
def applyWeight (c : Connection) : Connection :=
  { c with stats := { c.stats with weight_percent := bucketWeight c.stats.error_points } }

/-- The connections counted as active by `adjust_weights` (those that are not
timed out), taken after the phase-1 weight update. -/
def activeConns (conns : List Connection) (current_time : Int) : List Connection :=
  conns.filter (fun c => !connTimedOut c current_time)

/-- `max_weight` accumulation of `load_balancer.cpp` line 70. -/
def maxWeightOf (conns : List Connection) : Nat :=
  conns.foldl (fun m c => max m c.stats.weight_percent) 0

/-- The throttle value computed in phase 2 of `adjust_weights`:
`max(MIN_ACK_RATE, min(weight / WEIGHT_FULL, weight / max_weight))`, with the
relative quality 0 when `max_weight` is 0. -/
def newThrottle (max_weight : Nat) (c : Connection) : ℚ :=
  let absolute_quality : ℚ := (c.stats.weight_percent : ℚ) / (WEIGHT_FULL : ℚ)
  let relative_quality : ℚ :=
    if 0 < max_weight then (c.stats.weight_percent : ℚ) / (max_weight : ℚ) else 0
  max MIN_ACK_RATE (min absolute_quality relative_quality)

/-- Phase 2 of `adjust_weights` applied to one connection in the
load-balancing branch: adopt the new throttle only when it moved by more than
0.01 (`load_balancer.cpp` line 93). -/
def applyThrottle (max_weight : Nat) (c : Connection) : Connection :=
  if 1/100 < |c.stats.ack_throttle_factor - newThrottle max_weight c| then
    { c with stats := { c.stats with ack_throttle_factor := newThrottle max_weight c } }
  else c

/-- Phase 2 in the non-balancing branch: force the throttle back to 1
(`load_balancer.cpp` lines 102-109; the `!= 1.0` test there only controls
logging). -/
def forceFullThrottle (c : Connection) : Connection :=
  { c with stats := { c.stats with ack_throttle_factor := 1 } }

/-- The early-return guard of `adjust_weights` (lines 19-34): the run is
skipped for an empty group, when load balancing is enabled but no quality
evaluation happened since the last balance, or when it is disabled and the
last run is more recent than `CONN_QUALITY_EVAL_PERIOD`. -/
def adjustWeightsSkipped (g : ConnectionGroup) (current_time : Int) : Bool :=
  g.conns.isEmpty ||
  (if g.load_balancing_enabled then
     decide (g.last_quality_eval ≤ g.last_load_balance_eval)
   else
     decide (g.last_load_balance_eval ≠ 0) &&
     decide (current_time < g.last_load_balance_eval + CONN_QUALITY_EVAL_PERIOD))

/-- `LoadBalancer::adjust_weights`: bucket every connection's weight from its
error points, then either recompute every connection's ACK throttle factor
from its weight relative to the best active connection (when load balancing is
enabled and more than one connection is active) or force all throttles to 1. -/
def adjust_weights (g : ConnectionGroup) (current_time : Int) : ConnectionGroup :=
  if adjustWeightsSkipped g current_time then g
  else
    let conns1 := g.conns.map applyWeight
    let act := activeConns conns1 current_time
    let max_weight := maxWeightOf act
    let conns2 :=
      if g.load_balancing_enabled ∧ 1 < act.length then
        conns1.map (applyThrottle max_weight)
      else
        conns1.map forceFullThrottle
    { g with conns := conns2, last_load_balance_eval := current_time }

/-! ## `QualityEvaluator::evaluate_group` (`quality_evaluator.cpp` 42-287) -/

/-- One element of the `bandwidth_info` vector (`quality_evaluator.h`):
`bandwidth_kbits_per_sec`, `packet_loss_ratio` (named `packet_loss_frac` here)
and `packets_diff`. -/
structure QualityMetrics where
  bandwidth_kbits : ℚ
  packet_loss_frac : ℚ
  packets_diff : Nat
deriving Repr, DecidableEq

/-- First loop of `evaluate_group` (lines 64-93) for one connection: the
per-period bandwidth and loss figures, plus this connection's contribution to
`total_target_bandwidth` (the `uint64_t` cast of `bandwidth_bytes_per_sec`). -/
def connMetrics (current_ms : Nat) (c : Connection) : QualityMetrics × Nat :=
  let time_diff_ms : Nat :=
    if 0 < c.stats.last_eval_time then sub64 current_ms c.stats.last_eval_time else 0
  if 0 < time_diff_ms then
    let bytes_diff := sub64 c.stats.bytes_received c.stats.last_bytes_received
    let packets_diff := sub64 c.stats.packets_received c.stats.last_packets_received
    let lost_diff := sub32 c.stats.packets_lost c.stats.last_packets_lost
    let seconds : ℚ := (time_diff_ms : ℚ) / 1000
    let bandwidth_bytes : ℚ := (bytes_diff : ℚ) / seconds
    let bandwidth_kbits : ℚ := bandwidth_bytes * 8 / 1000
    let loss : ℚ :=
      if 0 < packets_diff then (lost_diff : ℚ) / ((packets_diff : ℚ) + (lost_diff : ℚ)) else 0
    (⟨bandwidth_kbits, loss, packets_diff⟩, Nat.floor bandwidth_bytes)
  else
    (⟨0, 0, 0⟩, 0)

/-- Ascending insertion, used to model `std::sort`. -/
def insertAsc (x : ℚ) : List ℚ → List ℚ
  | [] => [x]
  | y :: ys => if x ≤ y then x :: y :: ys else y :: insertAsc x ys

/-- Ascending sort (`std::sort` in the `compute_median` lambda). -/
def sortAsc : List ℚ → List ℚ
  | [] => []
  | x :: xs => insertAsc x (sortAsc xs)

/-- The `compute_median` lambda of `evaluate_group` (lines 119-126). -/
def computeMedian (values : List ℚ) : ℚ :=
  let sorted := sortAsc values
  let mid := sorted.length / 2
  if sorted.length % 2 = 0 then (sorted.getD (mid - 1) 0 + sorted.getD mid 0) / 2
  else sorted.getD mid 0

/-- The median selection of `evaluate_group` (lines 100-137): 0 unless some
connection shows bandwidth; else the median of the connections within
`GOOD_CONNECTION_THRESHOLD` of the best, falling back to the median of all. -/
def medianBandwidth (all_bandwidths : List ℚ) : ℚ :=
  let max_kbits := all_bandwidths.foldl max 0
  if 0 < max_kbits then
    let good_threshold := max_kbits * GOOD_CONNECTION_THRESHOLD
    let good := all_bandwidths.filter (fun bw => decide (good_threshold ≤ bw))
    if good.isEmpty then computeMedian all_bandwidths else computeMedian good
  else 0

/-- The `evaluate_connection_legacy` comparison pass (lines 404-460); it only
writes the `legacy_*` fields. -/
def evaluateConnectionLegacy (s : ConnectionStats) (packet_loss_frac perf_quot : ℚ) :
    ConnectionStats :=
  let bwPts : Nat :=
    if perf_quot < 3/10 then 40
    else if perf_quot < 5/10 then 25
    else if perf_quot < 7/10 then 15
    else if perf_quot < 85/100 then 5
    else 0
  let lossPts : Nat :=
    if 20/100 < packet_loss_frac then 40
    else if 10/100 < packet_loss_frac then 20
    else if 5/100 < packet_loss_frac then 10
    else if 1/100 < packet_loss_frac then 5
    else 0
  let lep := bwPts + lossPts
  let lw : Nat :=
    if 40 ≤ lep then WEIGHT_CRITICAL
    else if 30 ≤ lep then WEIGHT_POOR
    else if 20 ≤ lep then WEIGHT_FAIR
    else if 10 ≤ lep then WEIGHT_DEGRADED
    else if 5 ≤ lep then WEIGHT_EXCELLENT
    else WEIGHT_FULL
  { s with legacy_error_points := lep, legacy_weight_percent := lw,
           legacy_ack_throttle_factor := max MIN_ACK_RATE ((lw : ℚ) / 100) }

/-- Second loop of `evaluate_group` (lines 145-284) for one connection: skip
entirely during the grace period, otherwise rebuild the error points from
bandwidth performance, packet loss and (when fresh telemetry is present) the
sender-side metrics, then roll the `last_*` counters.  `validate_bitrate`
(lines 383-402) only logs and is omitted. -/
def evalConn (current_time : Int) (current_ms : Nat) (median min_expected : ℚ)
    (c : Connection) (m : QualityMetrics) : Connection :=
  if current_time - c.connection_start < CONNECTION_GRACE_PERIOD then c
  else
    let s0 := { c.stats with error_points := 0 }
    let is_poor := m.bandwidth_kbits < median * GOOD_CONNECTION_THRESHOLD
    let expected0 : ℚ := if is_poor then min_expected else median
    let expected := max expected0 min_expected
    let perf_quot : ℚ := if 0 < expected then m.bandwidth_kbits / expected else 0
    let bwPts : Nat :=
      if s0.sender_supports_extended_keepalives then
        if perf_quot < 3/10 then 10
        else if perf_quot < 5/10 then 7
        else if perf_quot < 7/10 then 4
        else if perf_quot < 85/100 then 2
        else 0
      else
        if perf_quot < 3/10 then 40
        else if perf_quot < 5/10 then 25
        else if perf_quot < 7/10 then 15
        else if perf_quot < 85/100 then 5
        else 0
    let lossPts : Nat :=
      if 20/100 < m.packet_loss_frac then 40
      else if 10/100 < m.packet_loss_frac then 20
      else if 5/100 < m.packet_loss_frac then 10
      else if 1/100 < m.packet_loss_frac then 5
      else 0
    let s1 := { s0 with error_points := s0.error_points + bwPts + lossPts }
    let has_telemetry := has_valid_sender_telemetry s1 current_time
    let stage2 :=
      if has_telemetry then
        let rttPts := calculate_rtt_error_points s1 current_time
        let nak := calculate_nak_error_points s1 m.packets_diff
        let winPts := calculate_window_error_points nak.2
        { nak.2 with error_points := nak.2.error_points + (rttPts + nak.1 + winPts) }
      else s1
    let s3 := { stage2 with
      last_bytes_received := stage2.bytes_received,
      last_packets_received := stage2.packets_received,
      last_packets_lost := stage2.packets_lost,
      last_eval_time := current_ms,
      nack_count := 0 }
    { c with stats := evaluateConnectionLegacy s3 m.packet_loss_frac perf_quot }

/-- The early-return guard of `evaluate_group` (lines 43-49). -/
def evaluateGroupSkipped (g : ConnectionGroup) (current_time : Int) : Bool :=
  g.conns.isEmpty || !g.load_balancing_enabled ||
  decide (current_time < g.last_quality_eval + CONN_QUALITY_EVAL_PERIOD)

/-- `QualityEvaluator::evaluate_group`.  `get_ms` is modelled as succeeding
and returning `current_ms`. -/
def evaluate_group (g : ConnectionGroup) (current_time : Int) (current_ms : Nat) :
    ConnectionGroup :=
  if evaluateGroupSkipped g current_time then g
  else
    let infos := g.conns.map (connMetrics current_ms)
    let metrics := infos.map Prod.fst
    let total_bw := (infos.map Prod.snd).sum
    let median := medianBandwidth (metrics.map QualityMetrics.bandwidth_kbits)
    let min_expected : ℚ :=
      max 100 (MIN_ACCEPTABLE_TOTAL_BANDWIDTH_KBPS / (metrics.length : ℚ))
    let conns2 := (g.conns.zip metrics).map
      (fun p => evalConn current_time current_ms median min_expected p.1 p.2)
    { g with conns := conns2, total_target_bandwidth := total_bw,
             last_quality_eval := current_time }

/-! ## `ConnectionRegistry` (`connection_registry.cpp`) -/

/-- `addresses_equal` (`connection_registry.cpp` 20-36) on opaque addresses. -/
def addressesEqual (a b : Nat) : Bool := a == b

/-- Index of the first connection whose peer address matches, mirroring the
inner loop of `find_by_address`. -/
def connIdx : List Connection → Nat → Option Nat
  | [], _ => none
  | c :: cs, a =>
    if addressesEqual c.address a then some 0 else (connIdx cs a).map (· + 1)

/-- `ConnectionRegistry::find_by_address` (lines 66-87), returning the indices
of the matched group and connection instead of shared pointers: for each group
in registration order, first match the group's member connections, then the
group's `last_address`. -/
def find_by_address : List ConnectionGroup → Nat → Option (Nat × Option Nat)
  | [], _ => none
  | g :: gs, a =>
    match connIdx g.conns a with
    | some j => some (0, some j)
    | none =>
      if g.last_addr = some a then some (0, none)
      else (find_by_address gs a).map (fun p => (p.1 + 1, p.2))

/-- `ConnectionRegistry::find_group_by_id` (lines 57-64), returning the index
of the first group with a matching id. -/
def find_group_by_id : List ConnectionGroup → Nat → Option Nat
  | [], _ => none
  | g :: gs, gid =>
    if g.id = gid then some 0 else (find_group_by_id gs gid).map (· + 1)

/-- The registry (`connection_registry.h`): the ordered list of groups. -/
structure ConnectionRegistry where
  groups : List ConnectionGroup
deriving Repr, DecidableEq

/-- Replace the element at an index (the effect of mutating a group found in
the `groups_` vector). -/
def updateAt {α : Type} (i : Nat) (f : α → α) : List α → List α
  | [] => []
  | x :: xs =>
    match i with
    | 0 => f x :: xs
    | n + 1 => x :: updateAt n f xs

/-! ## Registration (`srtla_handler.cpp` 167-283) -/

/-- The SRTLA control reply a registration attempt puts on the wire. -/
inductive RegReply
  | regErr
  | regNgp
  | reg2
  | reg3
deriving Repr, DecidableEq

/-- `SRTLAHandler::register_group`: reject with REG_ERR when `MAX_GROUPS` is
reached or the source address is already owned; otherwise create a group
whose id combines the client id with random bytes (here the opaque `gid`),
remember the source as its `last_address`, reply REG2, and add the group.
The REG2 send is modelled as succeeding. -/
def register_group (r : ConnectionRegistry) (addr : Nat) (gid : Nat) (ts : Int) :
    RegReply × ConnectionRegistry :=
  if MAX_GROUPS ≤ r.groups.length then (.regErr, r)
  else
    match find_by_address r.groups addr with
    | some _ => (.regErr, r)
    | none =>
      let g := { mkGroup gid ts with last_addr := some addr }
      (.reg2, ⟨r.groups ++ [g]⟩)

/-- `SRTLAHandler::register_connection`.  `wait_group_by_id` is modelled by
its result: either the group id resolves (possibly after the 200 ms wait) or
it does not.  Reject with REG_NGP when no group matches the id, with REG_ERR
when the source address belongs to a different group or when a new connection
would exceed `MAX_CONNS_PER_GROUP`; otherwise reply REG3, add the connection
if it is new, and remember the source as the group's `last_address`.  The REG3
send is modelled as succeeding. -/
def register_connection (r : ConnectionRegistry) (addr : Nat) (gid : Nat) (ts : Int) :
    RegReply × ConnectionRegistry :=
  match find_group_by_id r.groups gid with
  | none => (.regNgp, r)
  | some gi =>
    let finish (add_new : Bool) : RegReply × ConnectionRegistry :=
      if add_new then
        if MAX_CONNS_PER_GROUP ≤ ((r.groups.getD gi (mkGroup 0 0)).conns).length then
          (.regErr, r)
        else
          (.reg3, ⟨updateAt gi (fun g =>
            { g with conns := g.conns ++ [mkConnection addr ts],
                     last_addr := some addr }) r.groups⟩)
      else
        (.reg3, ⟨updateAt gi (fun g => { g with last_addr := some addr }) r.groups⟩)
    match find_by_address r.groups addr with
    | some (gi2, conn?) =>
      if gi2 ≠ gi then (.regErr, r)
      else
        match conn? with
        | some _ => finish false
        | none => finish true
    | none => finish true

/-! ## Reachable states -/

/-- Reachable states of a single connection.  `recv_idx_` and `recv_log_` are
written only by `register_packet` (`set_recv_index` has no other caller); every
other mutation of a connection touches its stats (`metrics_collector.cpp`,
`load_balancer.cpp`, `quality_evaluator.cpp`, keepalive telemetry), its
`last_rcvd_` (`update_last_received`) or its `recovery_start_`, which the
`stats`, `rcvd` and `recovery` steps over-approximate. -/
inductive ConnReachable : Connection → Prop
  | init (addr : Nat) (ts : Int) : ConnReachable (mkConnection addr ts)
  | packet (c : Connection) (sn now_ms : Nat) :
      ConnReachable c → ConnReachable (register_packet c sn now_ms).conn
  | stats (c : Connection) (s : ConnectionStats) :
      ConnReachable c → ConnReachable { c with stats := s }
  | rcvd (c : Connection) (ts : Int) :
      ConnReachable c → ConnReachable { c with last_rcvd := ts }
  | recovery (c : Connection) (ts : Int) :
      ConnReachable c → ConnReachable { c with recovery_start := ts }

/-- Reachable states of a connection group, stepping through the operations of
the receiver that touch a group or its connections: creation by
`register_group`, connection admission by `register_connection`, data packets
(`register_packet`, `on_packet_received`, `on_nak_detected`), keepalive
telemetry, quality evaluation, load balancing, NAK deduplication, address and
liveness bookkeeping, and connection removal by `cleanup_inactive`. -/
inductive GroupReachable : ConnectionGroup → Prop
  | init (gid : Nat) (ts : Int) (addr : Nat) :
      GroupReachable { mkGroup gid ts with last_addr := some addr }
  | addConn (g : ConnectionGroup) (addr : Nat) (ts : Int) :
      GroupReachable g →
      GroupReachable { g with conns := g.conns ++ [mkConnection addr ts],
                              last_addr := some addr }
  | packet (g : ConnectionGroup) (i sn now_ms : Nat) :
      GroupReachable g →
      GroupReachable { g with
        conns := updateAt i (fun c => (register_packet c sn now_ms).conn) g.conns }
  | packetRecv (g : ConnectionGroup) (i bytes : Nat) :
      GroupReachable g →
      GroupReachable { g with
        conns := updateAt i (fun c => { c with stats := on_packet_received c.stats bytes }) g.conns }
  | nakDetected (g : ConnectionGroup) (i k : Nat) :
      GroupReachable g →
      GroupReachable { g with
        conns := updateAt i (fun c => { c with stats := on_nak_detected c.stats k }) g.conns }
  | telemetry (g : ConnectionGroup) (i : Nat) (info : ConnectionInfo) (t : Int) :
      GroupReachable g →
      GroupReachable { g with
        conns := updateAt i
          (fun c => { c with stats := update_connection_telemetry c.stats info t }) g.conns }
  | rcvd (g : ConnectionGroup) (i : Nat) (ts : Int) :
      GroupReachable g →
      GroupReachable { g with conns := updateAt i (fun c => { c with last_rcvd := ts }) g.conns }
  | recovery (g : ConnectionGroup) (i : Nat) (ts : Int) :
      GroupReachable g →
      GroupReachable { g with
        conns := updateAt i (fun c => { c with recovery_start := ts }) g.conns }
  | quality (g : ConnectionGroup) (t : Int) (now_ms : Nat) :
      GroupReachable g → GroupReachable (evaluate_group g t now_ms)
  | balance (g : ConnectionGroup) (t : Int) :
      GroupReachable g → GroupReachable (adjust_weights g t)
  | nakCache (g : ConnectionGroup) (hash now_ms : Nat) :
      GroupReachable g →
      GroupReachable { g with nak_cache := (should_accept_nak g.nak_cache hash now_ms).2 }
  | lastAddr (g : ConnectionGroup) (addr : Nat) :
      GroupReachable g → GroupReachable { g with last_addr := some addr }
  | removeConn (g : ConnectionGroup) (i : Nat) :
      GroupReachable g → GroupReachable { g with conns := g.conns.eraseIdx i }

/-! ## Spec-side definitions used to state claims against the code -/

/-- The ACK-throttling condition exactly as the specification words it for
`register_packet`: the factor is below 1 and `now_ms - last_ack_sent_time` is
less than `ACK_THROTTLE_INTERVAL / ack_throttle_factor` milliseconds.  Unlike
the condition in the source (`ackThrottled`), it does not require that an ACK
was ever sent. -/
def specClaimedThrottle (factor : ℚ) (last_ack_sent_time now_ms : Nat) : Prop :=
  factor < 1 ∧
  (now_ms : ℚ) - (last_ack_sent_time : ℚ) < (ACK_THROTTLE_INTERVAL : ℚ) / factor

/-! ## Helper lemmas -/

theorem ackThrottled_iff (s : ConnectionStats) (now_ms : Nat) :
    ackThrottled s now_ms = true ↔
      0 < s.ack_throttle_factor ∧ s.ack_throttle_factor < 1 ∧
      0 < s.last_ack_sent_time ∧
      now_ms < s.last_ack_sent_time +
        Nat.floor ((ACK_THROTTLE_INTERVAL : ℚ) / s.ack_throttle_factor) := by
  simp [ackThrottled, and_assoc]

/-! ## C10 -/

/-- C10: on a connection on which no SRTLA ACK has ever been sent
(`last_ack_sent_time == 0`), the ACK emitted when the receive index reaches
`RECV_ACK_INT` is never suppressed, whatever the throttle factor. -/
theorem first_ack_never_suppressed (c : Connection) (sn now_ms : Nat)
    (hlast : c.stats.last_ack_sent_time = 0)
    (hidx : c.recv_idx + 1 = (RECV_ACK_INT : Int)) :
    (register_packet c sn now_ms).ack =
      some (c.recv_log.set c.recv_idx.toNat (be32 sn)) ∧
    (register_packet c sn now_ms).conn.stats.last_ack_sent_time = now_ms := by
  have hthr : ackThrottled c.stats now_ms = false := by
    simp [ackThrottled, hlast]
  have h9 : c.recv_idx = 9 := by
    have h10 : ((RECV_ACK_INT : Nat) : Int) = 10 := by decide
    omega
  rw [register_packet]
  simp [hidx, hthr, h9, RECV_ACK_INT]

/-- A connection one packet away from an ACK, with a throttle factor of 0.55
and no ACK sent yet. -/
def ackWitnessConn : Connection :=
  { mkConnection 0 0 with recv_idx := 9, stats := { ack_throttle_factor := 11/20 } }

/-- Witness for C10 at a concrete connection. -/
theorem first_ack_never_suppressed_witness :
    ackWitnessConn.stats.last_ack_sent_time = 0 ∧
    (register_packet ackWitnessConn 7 50).ack ≠ none := by
  refine ⟨rfl, ?_⟩
  have h := first_ack_never_suppressed ackWitnessConn 7 50 rfl (by decide)
  simp [h.1]

/-! ## C1 -/

/-- A connection one packet away from an ACK, with throttle factor 0.55 and no
ACK ever sent, observed at `now_ms = 50`. -/
def throttleCexConn : Connection :=
  { mkConnection 1 0 with recv_idx := 9, stats := { ack_throttle_factor := 11/20 } }

/-- C1 counterexample: at a connection with `ack_throttle_factor = 0.55` and
`last_ack_sent_time = 0`, at `now_ms = 50`, the throttling condition as the
claim words it holds (`0.55 < 1` and `50 - 0 < 100 / 0.55 ≈ 181.8`), yet
`register_packet` emits the ACK rather than suppressing it: the code
additionally requires `last_ack_sent_time > 0`. -/
theorem register_packet_claim_counterexample :
    specClaimedThrottle throttleCexConn.stats.ack_throttle_factor
      throttleCexConn.stats.last_ack_sent_time 50 ∧
    (register_packet throttleCexConn 7 50).ack ≠ none := by
  constructor
  · refine ⟨by norm_num [throttleCexConn, mkConnection], ?_⟩
    norm_num [throttleCexConn, mkConnection, ACK_THROTTLE_INTERVAL]
  · simp only [register_packet, throttleCexConn, mkConnection, ackThrottled, RECV_ACK_INT]
    norm_num
    exact Option.some_ne_none _

/-- C1 (amended): `register_packet` stores the big-endian encoding of `sn` at
the current write position; short of `RECV_ACK_INT` it just increments the
index; on reaching `RECV_ACK_INT` it resets the index to 0 and emits an ACK
carrying the 10 logged entries if and only if throttling does not hold, where
throttling requires `0 < factor < 1`, a previously sent ACK
(`last_ack_sent_time > 0`), and `now_ms` short of `last_ack_sent_time` plus
`ACK_THROTTLE_INTERVAL / factor` truncated to whole milliseconds; a suppressed
ACK leaves no other trace (`last_ack_sent_time` is not advanced). -/
theorem register_packet_spec (c : Connection) (sn now_ms : Nat)
    (h0 : 0 ≤ c.recv_idx) :
    (register_packet c sn now_ms).conn.recv_log =
      c.recv_log.set c.recv_idx.toNat (be32 sn) ∧
    (c.recv_idx + 1 ≠ (RECV_ACK_INT : Int) →
      (register_packet c sn now_ms).conn.recv_idx = c.recv_idx + 1 ∧
      (register_packet c sn now_ms).ack = none ∧
      (register_packet c sn now_ms).conn.stats = c.stats) ∧
    (c.recv_idx + 1 = (RECV_ACK_INT : Int) →
      (register_packet c sn now_ms).conn.recv_idx = 0 ∧
      ((0 < c.stats.ack_throttle_factor ∧ c.stats.ack_throttle_factor < 1 ∧
        0 < c.stats.last_ack_sent_time ∧
        now_ms < c.stats.last_ack_sent_time +
          Nat.floor ((ACK_THROTTLE_INTERVAL : ℚ) / c.stats.ack_throttle_factor)) ↔
        (register_packet c sn now_ms).ack = none) ∧
      ((register_packet c sn now_ms).ack = none →
        (register_packet c sn now_ms).conn.stats = c.stats) ∧
      ((register_packet c sn now_ms).ack ≠ none →
        (register_packet c sn now_ms).ack =
          some (c.recv_log.set c.recv_idx.toNat (be32 sn)) ∧
        (register_packet c sn now_ms).conn.stats.last_ack_sent_time = now_ms)) := by
  have hset : (c.recv_idx + 1 - 1).toNat = c.recv_idx.toNat := by omega
  simp only [register_packet]
  split_ifs with h1 h2
  · refine ⟨by rw [hset], fun h => absurd h1 h, fun _ => ?_⟩
    exact ⟨rfl, ⟨fun _ => rfl, fun _ => (ackThrottled_iff _ _).mp h2⟩,
      fun _ => rfl, fun h => absurd rfl h⟩
  · refine ⟨by rw [hset], fun h => absurd h1 h, fun _ => ?_⟩
    refine ⟨rfl, ⟨fun hc => absurd ((ackThrottled_iff _ _).mpr hc) h2, fun h => by simp at h⟩,
      fun h => by simp at h, fun _ => ⟨by rw [hset], rfl⟩⟩
  · exact ⟨by rw [hset], fun _ => ⟨rfl, rfl, rfl⟩, fun h => absurd h h1⟩

/-- Witness for C1's amended theorem at a concrete connection (three packets
already logged, the ACK threshold not yet reached). -/
theorem register_packet_spec_witness :
    (0 : Int) ≤ 3 ∧
    (register_packet { mkConnection 2 0 with recv_idx := 3 } 7 50).conn.recv_log =
      ({ mkConnection 2 0 with recv_idx := 3 } : Connection).recv_log.set 3 (be32 7) := by
  have h := register_packet_spec { mkConnection 2 0 with recv_idx := 3 } 7 50 (by decide)
  exact ⟨by decide, h.1⟩

/-! ## C6 -/

theorem register_packet_recv_idx (c : Connection) (sn now_ms : Nat) :
    (register_packet c sn now_ms).conn.recv_idx =
      if c.recv_idx + 1 = (RECV_ACK_INT : Int) then 0 else c.recv_idx + 1 := by
  simp only [register_packet]
  split_ifs <;> rfl

/-- C6: in every reachable connection state, `0 ≤ recv_idx < RECV_ACK_INT`;
`register_packet` is the only step that writes the index, and the increment
that reaches `RECV_ACK_INT` is folded back to 0 before it returns. -/
theorem recv_idx_invariant (c : Connection) (h : ConnReachable c) :
    0 ≤ c.recv_idx ∧ c.recv_idx < (RECV_ACK_INT : Int) := by
  induction h with
  | init addr ts => simp [mkConnection, RECV_ACK_INT]
  | packet c sn now_ms _ ih =>
    rw [register_packet_recv_idx]
    split_ifs with hhit
    · exact ⟨le_refl 0, by simp [RECV_ACK_INT]⟩
    · obtain ⟨hl, hr⟩ := ih
      constructor
      · omega
      · rcases lt_or_eq_of_le (Int.add_one_le_iff.mpr hr) with h | h
        · exact h
        · exact absurd h hhit
  | stats c s _ ih => exact ih
  | rcvd c ts _ ih => exact ih
  | recovery c ts _ ih => exact ih

/-- Witness for C6 at the freshly constructed connection. -/
theorem recv_idx_invariant_witness :
    0 ≤ (mkConnection 0 0).recv_idx ∧ (mkConnection 0 0).recv_idx < (RECV_ACK_INT : Int) :=
  recv_idx_invariant (mkConnection 0 0) (ConnReachable.init 0 0)

/-! ## C2 -/

/-- C2: `should_accept_nak` accepts and inserts a fresh entry on the first
sighting of a hash; on a later sighting it rejects when the clock ran
backwards, when inside the 100 ms suppression window, or when the entry was
already repeated `MAX_REPEATS = 1` times, and otherwise refreshes the entry
and accepts; consequently a third sighting of the same hash is rejected even
when each sighting is separated by more than the 100 ms window. -/
theorem should_accept_nak_spec (cache : NakCache) (hash now_ms t1 t2 : Nat) :
    (cacheFind cache hash = none →
      should_accept_nak cache hash now_ms =
        (true, cache ++ [(hash, ⟨now_ms, 0⟩)])) ∧
    (∀ e, cacheFind cache hash = some e →
      ((now_ms < e.timestamp_ms ∨ now_ms - e.timestamp_ms < SUPPRESS_MS ∨
          MAX_REPEATS ≤ e.repeat_count) →
        should_accept_nak cache hash now_ms = (false, cache)) ∧
      (¬ (now_ms < e.timestamp_ms ∨ now_ms - e.timestamp_ms < SUPPRESS_MS ∨
          MAX_REPEATS ≤ e.repeat_count) →
        should_accept_nak cache hash now_ms =
          (true, cacheSet cache hash ⟨now_ms, e.repeat_count + 1⟩))) ∧
    (cacheFind cache hash = none → now_ms + SUPPRESS_MS ≤ t1 →
      (should_accept_nak ((should_accept_nak cache hash now_ms).2) hash t1).1 = true ∧
      (should_accept_nak
        ((should_accept_nak ((should_accept_nak cache hash now_ms).2) hash t1).2)
        hash t2).1 = false) := by
  have hfind_app : ∀ (l : NakCache) (e : NakHashEntry), cacheFind l hash = none →
      cacheFind (l ++ [(hash, e)]) hash = some e := by
    intro l e hl
    induction l with
    | nil => simp [cacheFind]
    | cons p rest ih =>
      rw [cacheFind] at hl
      rcases p with ⟨k, e0⟩
      by_cases hk : k = hash
      · rw [if_pos hk] at hl; exact absurd hl (by simp)
      · rw [if_neg hk] at hl
        simpa [cacheFind, hk] using ih hl
  have hfind_set : ∀ (l : NakCache) (e0 e : NakHashEntry), cacheFind l hash = some e0 →
      cacheFind (cacheSet l hash e) hash = some e := by
    intro l e0 e hl
    induction l with
    | nil => simp [cacheFind] at hl
    | cons p rest ih =>
      rcases p with ⟨k, e1⟩
      rw [cacheFind] at hl
      by_cases hk : k = hash
      · simp [cacheSet, cacheFind, hk]
      · rw [if_neg hk] at hl
        simpa [cacheSet, cacheFind, hk] using ih hl
  refine ⟨?_, ?_, ?_⟩
  · intro hnone
    rw [should_accept_nak, hnone]
  · intro e he
    constructor
    · intro hrej
      rw [should_accept_nak, he]
      dsimp only
      rcases hrej with h | h | h
      · rw [if_pos h]
      · by_cases h0 : now_ms < e.timestamp_ms
        · rw [if_pos h0]
        · rw [if_neg h0, if_pos h]
      · by_cases h0 : now_ms < e.timestamp_ms
        · rw [if_pos h0]
        · by_cases h1 : now_ms - e.timestamp_ms < SUPPRESS_MS
          · rw [if_neg h0, if_pos h1]
          · rw [if_neg h0, if_neg h1, if_pos h]
    · intro hacc
      push_neg at hacc
      obtain ⟨h0, h1, h2⟩ := hacc
      rw [should_accept_nak, he]
      dsimp only
      rw [if_neg (by omega), if_neg (by omega), if_neg (by omega)]
  · intro hnone ht1
    have c1 : should_accept_nak cache hash now_ms =
        (true, cache ++ [(hash, ⟨now_ms, 0⟩)]) := by
      rw [should_accept_nak, hnone]
    have hf1 : cacheFind (cache ++ [(hash, (⟨now_ms, 0⟩ : NakHashEntry))]) hash =
        some ⟨now_ms, 0⟩ := hfind_app cache _ hnone
    have c2 : should_accept_nak (cache ++ [(hash, ⟨now_ms, 0⟩)]) hash t1 =
        (true, cacheSet (cache ++ [(hash, ⟨now_ms, 0⟩)]) hash ⟨t1, 1⟩) := by
      rw [should_accept_nak, hf1]
      dsimp only
      rw [if_neg (by simp only [SUPPRESS_MS] at ht1 ⊢; omega),
          if_neg (by simp only [SUPPRESS_MS] at ht1 ⊢; omega),
          if_neg (by simp [MAX_REPEATS])]
    have hf2 : cacheFind (cacheSet (cache ++ [(hash, ⟨now_ms, 0⟩)]) hash ⟨t1, 1⟩) hash =
        some ⟨t1, 1⟩ := hfind_set _ _ _ hf1
    have c3 : (should_accept_nak
        (cacheSet (cache ++ [(hash, ⟨now_ms, 0⟩)]) hash ⟨t1, 1⟩) hash t2).1 = false := by
      rw [should_accept_nak, hf2]
      dsimp only
      by_cases h0 : t2 < t1
      · rw [if_pos h0]
      · by_cases h1 : t2 - t1 < SUPPRESS_MS
        · rw [if_neg h0, if_pos h1]
        · rw [if_neg h0, if_neg h1, if_pos (by simp [MAX_REPEATS])]
    rw [c1]
    exact ⟨by rw [c2], by rw [c2]; exact c3⟩

/-- Witness for C2: a fresh hash is accepted, a replay 40 ms later is
suppressed, and a third sighting 150 ms after the second is still rejected. -/
theorem should_accept_nak_spec_witness :
    cacheFind [] 7 = none ∧
    should_accept_nak [] 7 1000 = (true, [(7, ⟨1000, 0⟩)]) ∧
    (should_accept_nak [(7, ⟨1000, 0⟩)] 7 1040).1 = false ∧
    (should_accept_nak
      ((should_accept_nak ((should_accept_nak [] 7 1000).2) 7 1100).2) 7 1250).1 = false := by
  have h := should_accept_nak_spec [] 7 1000 1100 1250
  refine ⟨rfl, h.1 rfl, ?_, (h.2.2 rfl (by decide)).2⟩
  have h2 := (should_accept_nak_spec [(7, ⟨1000, 0⟩)] 7 1040 0 0).2.1 ⟨1000, 0⟩ rfl
  rw [(h2.1 (by right; left; decide))]

/-! ## C5 -/

/-- C5: with fresh, valid sender telemetry, the RTT error points are +20 above
500000 us, +10 above 200000 us, +5 above 100000 us, plus +10 when the standard
deviation of the RTT history exceeds 50000 us.  `rtt_ms` holds milliseconds,
so the reported RTT in microseconds is `1000 * rtt_ms`, and the squared
standard deviation in microseconds is `1000000 * rtt_variance_sq`. -/
theorem rtt_error_points_in_microseconds (s : ConnectionStats) (t : Int)
    (h : has_valid_sender_telemetry s t = true) :
    calculate_rtt_error_points s t =
      (if 500000 < 1000 * s.rtt_ms then 20
       else if 200000 < 1000 * s.rtt_ms then 10
       else if 100000 < 1000 * s.rtt_ms then 5 else 0) +
      (if (50000 : ℚ) ^ 2 < 1000000 * rtt_variance_sq s then 10 else 0) := by
  have hlk : ¬ s.last_keepalive = 0 := by
    intro h0
    simp [has_valid_sender_telemetry, h0] at h
  have hstale : ¬ t - s.last_keepalive > KEEPALIVE_STALENESS_THRESHOLD := by
    intro h1
    simp [has_valid_sender_telemetry, hlk, h1] at h
  have tier_eq : (if 500000 < 1000 * s.rtt_ms then 20
       else if 200000 < 1000 * s.rtt_ms then 10
       else if 100000 < 1000 * s.rtt_ms then 5 else 0) =
      (if RTT_THRESHOLD_CRITICAL < s.rtt_ms then 20
       else if RTT_THRESHOLD_HIGH < s.rtt_ms then 10
       else if RTT_THRESHOLD_MODERATE < s.rtt_ms then 5 else (0 : Nat)) := by
    simp only [RTT_THRESHOLD_CRITICAL, RTT_THRESHOLD_HIGH, RTT_THRESHOLD_MODERATE]
    split_ifs <;> omega
  have jitter_iff : ((50000 : ℚ) ^ 2 < 1000000 * rtt_variance_sq s) ↔
      ((RTT_VARIANCE_THRESHOLD : ℚ) ^ 2 < rtt_variance_sq s) := by
    rw [RTT_VARIANCE_THRESHOLD]
    push_cast
    constructor <;> intro hlt <;> nlinarith
  rw [tier_eq, if_congr jitter_iff rfl rfl, calculate_rtt_error_points,
    if_neg (by push_neg; exact ⟨hlk, not_lt.mp hstale⟩)]

/-- Stats with fresh telemetry and a 600 ms RTT, used as the C5 witness. -/
def rttWitnessStats : ConnectionStats := { last_keepalive := 1, rtt_ms := 600 }

/-- Witness for C5 at concrete stats. -/
theorem rtt_error_points_in_microseconds_witness :
    has_valid_sender_telemetry rttWitnessStats 1 = true ∧
    calculate_rtt_error_points rttWitnessStats 1 =
      (if 500000 < 1000 * rttWitnessStats.rtt_ms then 20
       else if 200000 < 1000 * rttWitnessStats.rtt_ms then 10
       else if 100000 < 1000 * rttWitnessStats.rtt_ms then 5 else 0) +
      (if (50000 : ℚ) ^ 2 < 1000000 * rtt_variance_sq rttWitnessStats then 10 else 0) :=
  ⟨by decide, rtt_error_points_in_microseconds rttWitnessStats 1 (by decide)⟩

/-! ## C8 -/

theorem get?_zip_map_self {α β γ : Type} (f : α → β) (step : α × β → γ)
    (l : List α) (i : Nat) :
    ((l.zip (l.map f)).map step).get? i =
      (l.get? i).map (fun c => step (c, f c)) := by
  induction l generalizing i with
  | nil => simp
  | cons x xs ih =>
    cases i with
    | zero => simp
    | succ j => simpa using ih j

/-- C8: a connection whose age at evaluation time is inside the grace period
is skipped by `evaluate_group`, so its error points stay at 0. -/
theorem grace_period_keeps_zero_error_points (g : ConnectionGroup) (t : Int)
    (now_ms : Nat) (i : Nat)
    (hg : t - (g.conns.getD i (mkConnection 0 0)).connection_start < CONNECTION_GRACE_PERIOD)
    (h0 : (g.conns.getD i (mkConnection 0 0)).stats.error_points = 0) :
    ((evaluate_group g t now_ms).conns.getD i (mkConnection 0 0)).stats.error_points = 0 := by
  rw [evaluate_group]
  split_ifs with hskip
  · exact h0
  · have hmaps : ((g.conns.map (connMetrics now_ms)).map Prod.fst) =
        g.conns.map (fun c => (connMetrics now_ms c).1) := by
      rw [List.map_map]; rfl
    simp only [hmaps]
    simp only [List.getD_eq_getD_get?] at hg h0 ⊢
    simp only [get?_zip_map_self (fun c => (connMetrics now_ms c).1)]
    cases hc : g.conns.get? i with
    | none =>
      simp [hc]
      rfl
    | some c =>
      rw [hc] at hg h0
      simp only [hc, Option.map_some', Option.getD_some] at hg h0 ⊢
      simp only [evalConn]
      rw [if_pos hg]
      exact h0

/-- Witness for C8: a one-connection group evaluated 3 s after the connection
started keeps its 0 error points. -/
theorem grace_period_keeps_zero_error_points_witness :
    ((3 : Int) - ((({ mkGroup 5 0 with
        conns := [mkConnection 4 0] } : ConnectionGroup).conns.getD 0
          (mkConnection 0 0)).connection_start) < CONNECTION_GRACE_PERIOD) ∧
    ((evaluate_group { mkGroup 5 0 with conns := [mkConnection 4 0] } 3 3000).conns.getD 0
        (mkConnection 0 0)).stats.error_points = 0 :=
  ⟨by decide, grace_period_keeps_zero_error_points
    { mkGroup 5 0 with conns := [mkConnection 4 0] } 3 3000 0 (by decide) (by decide)⟩

/-! ## C3 -/

theorem applyThrottle_weight (mw : Nat) (x : Connection) :
    (applyThrottle mw x).stats.weight_percent = x.stats.weight_percent := by
  rw [applyThrottle]
  split_ifs <;> rfl

theorem applyThrottle_factor (mw : Nat) (x : Connection) :
    (applyThrottle mw x).stats.ack_throttle_factor =
      if 1/100 < |x.stats.ack_throttle_factor - newThrottle mw x| then newThrottle mw x
      else x.stats.ack_throttle_factor := by
  rw [applyThrottle]
  split_ifs <;> rfl

/-- C3: after a non-skipped `adjust_weights` run, every connection's weight is
the bucket of its error points; with load balancing enabled and at least two
active connections its throttle becomes
`max(MIN_ACK_RATE, min(weight/100, weight/max_weight))` (`max_weight` over the
non-timed-out connections, relative part 0 when `max_weight = 0`) unless the
change is within the 0.01 hysteresis; otherwise the throttle is forced to 1. -/
theorem adjust_weights_spec (g : ConnectionGroup) (t : Int)
    (hrun : adjustWeightsSkipped g t = false)
    (i : Nat) (c : Connection) (hc : g.conns.get? i = some c) :
    ∃ c2, (adjust_weights g t).conns.get? i = some c2 ∧
      c2.stats.weight_percent = bucketWeight c.stats.error_points ∧
      ((g.load_balancing_enabled = true ∧
          2 ≤ (activeConns (g.conns.map applyWeight) t).length) →
        c2.stats.ack_throttle_factor =
          (if 1/100 < |c.stats.ack_throttle_factor -
              max MIN_ACK_RATE
                (min ((bucketWeight c.stats.error_points : ℚ) / 100)
                  (if 0 < maxWeightOf (activeConns (g.conns.map applyWeight) t) then
                    (bucketWeight c.stats.error_points : ℚ) /
                      (maxWeightOf (activeConns (g.conns.map applyWeight) t) : ℚ)
                   else 0))| then
            max MIN_ACK_RATE
              (min ((bucketWeight c.stats.error_points : ℚ) / 100)
                (if 0 < maxWeightOf (activeConns (g.conns.map applyWeight) t) then
                  (bucketWeight c.stats.error_points : ℚ) /
                    (maxWeightOf (activeConns (g.conns.map applyWeight) t) : ℚ)
                 else 0))
           else c.stats.ack_throttle_factor)) ∧
      (¬ (g.load_balancing_enabled = true ∧
          2 ≤ (activeConns (g.conns.map applyWeight) t).length) →
        c2.stats.ack_throttle_factor = 1) := by
  have hnt : newThrottle (maxWeightOf (activeConns (g.conns.map applyWeight) t))
      (applyWeight c) =
      max MIN_ACK_RATE
        (min ((bucketWeight c.stats.error_points : ℚ) / 100)
          (if 0 < maxWeightOf (activeConns (g.conns.map applyWeight) t) then
            (bucketWeight c.stats.error_points : ℚ) /
              (maxWeightOf (activeConns (g.conns.map applyWeight) t) : ℚ)
           else 0)) := by
    simp [newThrottle, applyWeight, WEIGHT_FULL]
  rw [adjust_weights, if_neg (by simp [hrun])]
  simp only []
  by_cases hb : g.load_balancing_enabled = true ∧
      1 < (activeConns (g.conns.map applyWeight) t).length
  · rw [if_pos hb]
    refine ⟨applyThrottle (maxWeightOf (activeConns (g.conns.map applyWeight) t))
      (applyWeight c), ?_, ?_, ?_, ?_⟩
    · simp only [List.get?_map, hc, Option.map_some']
    · rw [applyThrottle_weight]; rfl
    · intro _
      rw [applyThrottle_factor, hnt]
      rfl
    · intro hn
      exact absurd ⟨hb.1, hb.2⟩ hn
  · rw [if_neg hb]
    refine ⟨forceFullThrottle (applyWeight c), ?_, ?_, ?_, ?_⟩
    · simp only [List.get?_map, hc, Option.map_some']
    · rfl
    · intro hp
      exact absurd ⟨hp.1, hp.2⟩ hb
    · intro _
      rfl

/-- A two-connection group ready for a load-balancing run: one clean
connection and one with 20 error points, both alive at `t = 10`. -/
def lbWitnessGroup : ConnectionGroup :=
  { mkGroup 3 0 with
    conns := [{ mkConnection 0 0 with last_rcvd := 10 },
              { mkConnection 1 0 with last_rcvd := 10, stats := { error_points := 20 } }],
    last_quality_eval := 1 }

/-- Witness for C3 at a concrete group. -/
theorem adjust_weights_spec_witness :
    adjustWeightsSkipped lbWitnessGroup 10 = false ∧
    ∃ c2, (adjust_weights lbWitnessGroup 10).conns.get? 0 = some c2 ∧
      c2.stats.weight_percent =
        bucketWeight ({ mkConnection 0 0 with last_rcvd := 10 } : Connection).stats.error_points := by
  refine ⟨by decide, ?_⟩
  obtain ⟨c2, h1, h2, _, _⟩ :=
    adjust_weights_spec lbWitnessGroup 10 (by decide) 0
      { mkConnection 0 0 with last_rcvd := 10 } rfl
  exact ⟨c2, h1, h2⟩

/-! ## C9 -/

/-- C9: `find_by_address` scans groups in registration order and, inside each
group, matches member connections before that group's `last_address`; an
address that is an earlier group's `last_address` and also the peer address of
a connection of a later group therefore resolves to the earlier group with no
connection. -/
theorem find_by_address_prefers_earlier_group
    (pre : List ConnectionGroup) (g1 : ConnectionGroup) (mid : List ConnectionGroup)
    (g2 : ConnectionGroup) (post : List ConnectionGroup) (a : Nat)
    (hpre : ∀ g ∈ pre, connIdx g.conns a = none ∧ g.last_addr ≠ some a)
    (hg1c : connIdx g1.conns a = none)
    (hg1 : g1.last_addr = some a)
    (hg2 : ∃ j, connIdx g2.conns a = some j) :
    find_by_address (pre ++ g1 :: (mid ++ g2 :: post)) a = some (pre.length, none) := by
  induction pre with
  | nil =>
    rw [List.nil_append, find_by_address, hg1c]
    dsimp only
    rw [if_pos hg1]
    rfl
  | cons g pre' ih =>
    obtain ⟨hgc, hgl⟩ := hpre g (List.mem_cons_self g pre')
    rw [List.cons_append, find_by_address, hgc]
    dsimp only
    rw [if_neg hgl, ih (fun g hg => hpre g (List.mem_cons_of_mem _ hg))]
    rfl

/-- Witness for C9: the queried address 5 is group 0's `last_address` and the
peer address of group 1's only connection; the lookup returns group 0 with no
connection. -/
theorem find_by_address_prefers_earlier_group_witness :
    ({ mkGroup 1 0 with last_addr := some 5 } : ConnectionGroup).last_addr = some 5 ∧
    connIdx ({ mkGroup 2 0 with conns := [mkConnection 5 0] } : ConnectionGroup).conns 5 =
      some 0 ∧
    find_by_address [{ mkGroup 1 0 with last_addr := some 5 },
      { mkGroup 2 0 with conns := [mkConnection 5 0] }] 5 = some (0, none) := by
  refine ⟨rfl, by decide, ?_⟩
  have h := find_by_address_prefers_earlier_group []
    { mkGroup 1 0 with last_addr := some 5 } []
    { mkGroup 2 0 with conns := [mkConnection 5 0] } [] 5
    (by intro g hg; simp at hg) (by decide) rfl ⟨0, by decide⟩
  simpa using h

/-! ## C4 -/

/-- C4 (amended): `register_group` replies REG_ERR, leaving the registry
untouched, when `MAX_GROUPS` is reached or when the source address is already
owned by a group or connection; `register_connection` replies REG_NGP when the
group id does not resolve (even after the 200 ms wait), and REG_ERR when the
source address belongs to a different group or when the source address is not
yet one of the group's connections and the group already has
`MAX_CONNS_PER_GROUP` connections; every rejection leaves the registry, its
groups and their connections unchanged. -/
theorem registration_rejections (r : ConnectionRegistry) (addr gid : Nat) (ts : Int) :
    (MAX_GROUPS ≤ r.groups.length → register_group r addr gid ts = (.regErr, r)) ∧
    (∀ p, find_by_address r.groups addr = some p →
      register_group r addr gid ts = (.regErr, r)) ∧
    (find_group_by_id r.groups gid = none →
      register_connection r addr gid ts = (.regNgp, r)) ∧
    (∀ gi gi2 conn?, find_group_by_id r.groups gid = some gi →
      find_by_address r.groups addr = some (gi2, conn?) → gi2 ≠ gi →
      register_connection r addr gid ts = (.regErr, r)) ∧
    (∀ gi, find_group_by_id r.groups gid = some gi →
      (find_by_address r.groups addr = none ∨
        find_by_address r.groups addr = some (gi, none)) →
      MAX_CONNS_PER_GROUP ≤ (r.groups.getD gi (mkGroup 0 0)).conns.length →
      register_connection r addr gid ts = (.regErr, r)) := by
  refine ⟨?_, ?_, ?_, ?_, ?_⟩
  · intro hfull
    rw [register_group, if_pos hfull]
  · intro p hp
    rw [register_group]
    split_ifs with hfull
    · rfl
    · rw [hp]
  · intro hng
    rw [register_connection, hng]
  · intro gi gi2 conn? hgi hfind hne
    rw [register_connection, hgi]
    dsimp only
    rw [hfind]
    dsimp only
    rw [if_pos hne]
  · intro gi hgi hfind hfull
    rw [register_connection, hgi]
    dsimp only
    rcases hfind with h | h
    · rw [h]
      dsimp only
      rw [if_pos hfull]
      simp
    · rw [h]
      dsimp only
      rw [if_neg (by simp), if_pos hfull]
      simp

/-- Witness for C4's amended theorem: an unknown group id on an empty registry
draws REG_NGP and leaves the registry empty. -/
theorem registration_rejections_witness :
    find_group_by_id (⟨[]⟩ : ConnectionRegistry).groups 9 = none ∧
    register_connection ⟨[]⟩ 3 9 0 = (.regNgp, ⟨[]⟩) :=
  ⟨rfl, (registration_rejections ⟨[]⟩ 3 9 0).2.2.1 rfl⟩

/-- A group already holding `MAX_CONNS_PER_GROUP` connections, one of which
has peer address 0. -/
def fullGroup : ConnectionGroup :=
  { mkGroup 7 0 with conns := (List.range 16).map (fun k => mkConnection k 0) }

/-- C4 counterexample: a REG2 retransmission from address 0, which is already
a member of the full group, is answered with REG3, not REG_ERR — the claim's
"REG_ERR when the target group already has 16 connections" does not hold for
re-registration of an existing member. -/
theorem register_connection_full_group_counterexample :
    MAX_CONNS_PER_GROUP ≤ fullGroup.conns.length ∧
    (register_connection ⟨[fullGroup]⟩ 0 7 5).1 = RegReply.reg3 := by
  constructor
  · decide
  · decide

/-! ## C7 -/

theorem register_packet_factor (c : Connection) (sn now_ms : Nat) :
    (register_packet c sn now_ms).conn.stats.ack_throttle_factor =
      c.stats.ack_throttle_factor := by
  simp only [register_packet]
  split_ifs <;> rfl

theorem calculate_nak_factor (s : ConnectionStats) (pd : Nat) :
    (calculate_nak_error_points s pd).2.ack_throttle_factor = s.ack_throttle_factor := by
  rw [calculate_nak_error_points]
  split_ifs <;> rfl

theorem legacy_factor (s : ConnectionStats) (a b : ℚ) :
    (evaluateConnectionLegacy s a b).ack_throttle_factor = s.ack_throttle_factor := rfl

theorem evalConn_factor (t : Int) (ms : Nat) (med me : ℚ) (c : Connection)
    (m : QualityMetrics) :
    (evalConn t ms med me c m).stats.ack_throttle_factor =
      c.stats.ack_throttle_factor := by
  rw [evalConn]
  by_cases hgrace : t - c.connection_start < CONNECTION_GRACE_PERIOD
  · rw [if_pos hgrace]
  · rw [if_neg hgrace]
    dsimp only
    rw [legacy_factor]
    dsimp only
    rw [apply_ite (fun s : ConnectionStats => s.ack_throttle_factor)]
    dsimp only
    rw [calculate_nak_factor, ite_self]

theorem mem_updateAt {α : Type} (i : Nat) (f : α → α) (l : List α) (a : α)
    (h : a ∈ updateAt i f l) : a ∈ l ∨ ∃ b ∈ l, a = f b := by
  induction l generalizing i with
  | nil => simp [updateAt] at h
  | cons x xs ih =>
    cases i with
    | zero =>
      rw [updateAt] at h
      rcases List.mem_cons.mp h with h | h
      · exact Or.inr ⟨x, List.mem_cons_self x xs, h⟩
      · exact Or.inl (List.mem_cons_of_mem x h)
    | succ j =>
      rw [updateAt] at h
      rcases List.mem_cons.mp h with h | h
      · exact Or.inl (h ▸ List.mem_cons_self x xs)
      · rcases ih j h with h | ⟨b, hb, hab⟩
        · exact Or.inl (List.mem_cons_of_mem x h)
        · exact Or.inr ⟨b, List.mem_cons_of_mem x hb, hab⟩

theorem bucketWeight_le (ep : Nat) : bucketWeight ep ≤ 100 := by
  rw [bucketWeight]
  split_ifs <;> simp [WEIGHT_CRITICAL, WEIGHT_POOR, WEIGHT_FAIR, WEIGHT_DEGRADED,
    WEIGHT_EXCELLENT, WEIGHT_FULL]

theorem newThrottle_bounds (mw : Nat) (x : Connection)
    (hw : x.stats.weight_percent ≤ 100) :
    MIN_ACK_RATE ≤ newThrottle mw x ∧ newThrottle mw x ≤ 1 := by
  refine ⟨le_max_left _ _, ?_⟩
  rw [newThrottle]
  apply max_le
  · rw [MIN_ACK_RATE]; norm_num
  · apply le_trans (min_le_left _ _)
    rw [WEIGHT_FULL, div_le_one (by norm_num)]
    exact_mod_cast hw

/-- The invariant of C7 for one connection. -/
def throttleInRange (c : Connection) : Prop :=
  MIN_ACK_RATE ≤ c.stats.ack_throttle_factor ∧ c.stats.ack_throttle_factor ≤ 1

theorem throttleInRange_stats_only (c c2 : Connection)
    (h : c2.stats.ack_throttle_factor = c.stats.ack_throttle_factor)
    (hc : throttleInRange c) : throttleInRange c2 := by
  rw [throttleInRange, h]
  exact hc

/-- C7: every reachable group state keeps every connection's
`ack_throttle_factor` within `[MIN_ACK_RATE, 1]`: the factor starts at 1, the
load balancer writes either `max(MIN_ACK_RATE, min(absolute, relative)) ≤ 1`
or exactly 1 (or leaves the old in-range value under hysteresis), and no other
operation writes the field. -/
theorem ack_throttle_factor_invariant (g : ConnectionGroup) (h : GroupReachable g) :
    ∀ c ∈ g.conns, MIN_ACK_RATE ≤ c.stats.ack_throttle_factor ∧
      c.stats.ack_throttle_factor ≤ 1 := by
  have hone : ∀ c : Connection, c.stats.ack_throttle_factor = 1 → throttleInRange c := by
    intro c hc
    rw [throttleInRange, hc, MIN_ACK_RATE]
    norm_num
  suffices hinv : ∀ c ∈ g.conns, throttleInRange c by
    intro c hc; exact hinv c hc
  induction h with
  | init gid ts addr => intro c hc; simp [mkGroup] at hc
  | addConn g addr ts _ ih =>
    intro c hc
    rcases List.mem_append.mp hc with h | h
    · exact ih c h
    · rw [List.mem_singleton.mp h]
      exact hone _ rfl
  | packet g i sn now_ms _ ih =>
    intro c hc
    rcases mem_updateAt _ _ _ _ hc with h | ⟨b, hb, hab⟩
    · exact ih c h
    · exact throttleInRange_stats_only b c (hab ▸ register_packet_factor b sn now_ms) (ih b hb)
  | packetRecv g i bytes _ ih =>
    intro c hc
    rcases mem_updateAt _ _ _ _ hc with h | ⟨b, hb, hab⟩
    · exact ih c h
    · exact throttleInRange_stats_only b c (by rw [hab]; rfl) (ih b hb)
  | nakDetected g i k _ ih =>
    intro c hc
    rcases mem_updateAt _ _ _ _ hc with h | ⟨b, hb, hab⟩
    · exact ih c h
    · exact throttleInRange_stats_only b c (by rw [hab]; rfl) (ih b hb)
  | telemetry g i info t _ ih =>
    intro c hc
    rcases mem_updateAt _ _ _ _ hc with h | ⟨b, hb, hab⟩
    · exact ih c h
    · exact throttleInRange_stats_only b c (by rw [hab]; rfl) (ih b hb)
  | rcvd g i ts _ ih =>
    intro c hc
    rcases mem_updateAt _ _ _ _ hc with h | ⟨b, hb, hab⟩
    · exact ih c h
    · exact throttleInRange_stats_only b c (by rw [hab]) (ih b hb)
  | recovery g i ts _ ih =>
    intro c hc
    rcases mem_updateAt _ _ _ _ hc with h | ⟨b, hb, hab⟩
    · exact ih c h
    · exact throttleInRange_stats_only b c (by rw [hab]) (ih b hb)
  | quality g t now_ms _ ih =>
    intro c hc
    rw [evaluate_group] at hc
    split_ifs at hc with hskip
    · exact ih c hc
    · simp only [] at hc
      rcases List.mem_map.mp hc with ⟨p, hp, hpc⟩
      have hp1 := (List.mem_zip hp).1
      exact throttleInRange_stats_only p.1 c
        (hpc ▸ evalConn_factor t now_ms _ _ p.1 p.2) (ih p.1 hp1)
  | balance g t _ ih =>
    intro c hc
    rw [adjust_weights] at hc
    split_ifs at hc with hskip
    · exact ih c hc
    · simp only [] at hc
      split_ifs at hc with hbal
      · rcases List.mem_map.mp hc with ⟨x, hx, hxc⟩
        rcases List.mem_map.mp hx with ⟨c0, hc0, hxc0⟩
        have hw : x.stats.weight_percent ≤ 100 := by
          rw [← hxc0]
          exact bucketWeight_le c0.stats.error_points
        rw [← hxc, applyThrottle]
        split_ifs with hchange
        · have hb2 := newThrottle_bounds
            (maxWeightOf (activeConns (List.map applyWeight g.conns) t)) x hw
          exact ⟨hb2.1, hb2.2⟩
        · have hx0 : x.stats.ack_throttle_factor = c0.stats.ack_throttle_factor := by
            rw [← hxc0]; rfl
          exact throttleInRange_stats_only c0 x hx0 (ih c0 hc0)
      · rcases List.mem_map.mp hc with ⟨x, hx, hxc⟩
        rw [← hxc]
        exact hone _ rfl
  | nakCache g hash now_ms _ ih => exact ih
  | lastAddr g addr _ ih => exact ih
  | removeConn g i _ ih =>
    intro c hc
    exact ih c (List.eraseIdx_subset _ _ hc)

/-- A freshly registered group holding one freshly admitted connection. -/
def c7WitnessGroup : ConnectionGroup :=
  { mkGroup 2 0 with conns := [] ++ [mkConnection 3 0], last_addr := some 3 }

/-- Witness for C7 at a freshly registered group with one connection. -/
theorem ack_throttle_factor_invariant_witness :
    MIN_ACK_RATE ≤ (mkConnection 3 0).stats.ack_throttle_factor ∧
      (mkConnection 3 0).stats.ack_throttle_factor ≤ 1 :=
  ack_throttle_factor_invariant c7WitnessGroup
    (GroupReachable.addConn { mkGroup 2 0 with last_addr := some 3 } 3 0
      (GroupReachable.init 2 0 3))
    (mkConnection 3 0) (by simp [c7WitnessGroup])

end Srtla
